import Mathlib

/-!
# SafeLayer backend — formal model

Shallow embedding of the SafeLayer risk backend's core logic:
the decision engine (`decideOnRisk`), the risk-intelligence aggregation
engine (sub-score composition and floor rules), the analyzers' error
fallbacks, the Guardian protection gate, and the Sentinel monitoring
agent's alert cache and submission deduplication.

Machine numbers are modelled as `Int` (JS numbers used as integers) and
exact rationals where the source multiplies by decimal weights; `Math.round`
is `⌊q + 1/2⌋` (round half up), which is exact for the weight sets used here
(no representable half-way cases arise, so binary floating point and exact
rational arithmetic agree).
-/

namespace SafeLayer

/-- Severity of an evidence flag (`types/risk.ts`). -/
inductive Severity where
  | info | low | medium | high | critical
deriving DecidableEq, Repr

/-- An evidence flag produced by an analyzer (`types/risk.ts`, `EvidenceFlag`). -/
structure EvidenceFlag where
  id : String
  name : String
  severity : Severity
  description : String
  evidence : String
  category : String
  source : Option String := none
  bscscanLink : Option String := none
  riskWeight : Nat
deriving DecidableEq, Repr

/-- Decision level (`openclaw/types.ts`, `DecisionLevel`). -/
inductive DecisionLevel where
  | ALLOW | WARN | BLOCK
deriving DecidableEq, Repr

/-- Decision confidence (`openclaw/types.ts`, `DecisionConfidence`). -/
inductive DecisionConfidence where
  | low | medium | high
deriving DecidableEq, Repr

/-- Structured decision (`openclaw/types.ts`, `RiskDecision`). -/
structure RiskDecision where
  level : DecisionLevel
  allowed : Bool
  recommended_action : DecisionLevel
  confidence : DecisionConfidence
  riskScore : Int
  reasoning : String
  timestamp : Nat
deriving DecidableEq, Repr

/-! ## Decision engine (`decisionEngine.ts`) -/

/-- `Math.max(0, Math.min(100, x))` — input clamping in `decideOnRisk`. -/
def clamp01 (x : Int) : Int := max 0 (min 100 x)

/-- `getDecisionLevel` — the threshold parameter is accepted but unused,
exactly as in the source. -/
def getDecisionLevel (score : Int) (_threshold : Int) : DecisionLevel :=
  if score < 30 then .ALLOW
  else if score < 60 then .WARN
  else .BLOCK

/-- `getConfidence` — distance of the score from the threshold. -/
def getConfidence (score : Int) (threshold : Int) : DecisionConfidence :=
  let distance := |score - threshold|
  if distance > 30 then .high
  else if distance > 15 then .medium
  else .low

/-- `generateReasoning` — templated reasoning text. -/
def generateReasoning (score : Int) (threshold : Int) (level : DecisionLevel) : String :=
  if score ≥ threshold ∧ level = .BLOCK then
    s!"Risk score {score} exceeds threshold {threshold}. Flagged for protection."
  else if score ≥ 30 ∧ level = .WARN then
    s!"Risk score {score} indicates elevated activity. User should verify legitimacy."
  else
    s!"Risk score {score} within acceptable range. Contract appears safe."

/-- `decideOnRisk` — the core decision function. The source reads the wall
clock (`Date.now()`) for the `timestamp` field; that read is made explicit
as the `now` argument. -/
def decideOnRisk (riskScore : Int) (threshold : Int) (now : Nat) : RiskDecision :=
  let score := clamp01 riskScore
  let thresh := clamp01 threshold
  let level := getDecisionLevel score thresh
  let allowed := level = .ALLOW ∨ level = .WARN
  let confidence := getConfidence score thresh
  let reasoning := generateReasoning score thresh level
  { level := level
    allowed := allowed
    recommended_action := level
    confidence := confidence
    riskScore := score
    reasoning := reasoning
    timestamp := now }

/-- `shouldSubmitToRegistry` — Sentinel submits when the decision is BLOCK
and the score meets the threshold. -/
def shouldSubmitToRegistry (decision : RiskDecision) (threshold : Int) : Bool :=
  decision.level = .BLOCK ∧ decision.riskScore ≥ threshold

/-! ## Risk intelligence aggregation engine (`riskIntelligenceEngine.ts`) -/

/-- `Math.round` on exact rationals: round half up, `⌊q + 1/2⌋`.
For the decimal weights used by the engine no representable half-way case
arises, so this agrees with the floating-point computation. -/
def jsRound (q : ℚ) : Int := ⌊q + 1/2⌋

/-- Inputs of the score-calculation phase of `analyzeRiskIntelligence`:
the five analyzer results, reduced to the fields the engine reads. -/
structure AggregatorInputs where
  contractFlags : List EvidenceFlag
  onchainFlags : List EvidenceFlag
  walletFlags : List EvidenceFlag
  transparencyFlags : List EvidenceFlag
  scamFlags : List EvidenceFlag
  contractScore : Nat
  onchainScore : Nat
  walletScore : Nat
  transparencyScore : Nat
  scamScore : Nat
  knownScam : Bool
  isBlacklisted : Bool
  rugpullHistory : Bool
  linkedRugpulls : List String
deriving Repr

/-- `contractRiskRaw = contractResult.score`. -/
def contractRiskRaw (inp : AggregatorInputs) : Int := inp.contractScore

/-- `behaviorRiskRaw = Math.min(Math.round(onchain*0.6 + wallet*0.4), 100)`. -/
def behaviorRiskRaw (inp : AggregatorInputs) : Int :=
  min (jsRound ((inp.onchainScore : ℚ) * (6/10) + (inp.walletScore : ℚ) * (4/10))) 100

/-- `reputationRiskRaw = Math.min(Math.round(transparency*0.5 + scam*0.5), 100)`. -/
def reputationRiskRaw (inp : AggregatorInputs) : Int :=
  min (jsRound ((inp.transparencyScore : ℚ) * (5/10) + (inp.scamScore : ℚ) * (5/10))) 100

/-- The pre-floor weighted total:
`Math.round(contract*0.40 + behavior*0.40 + reputation*0.20)`. -/
def weightedScore (inp : AggregatorInputs) : Int :=
  jsRound ((contractRiskRaw inp : ℚ) * (40/100)
    + (behaviorRiskRaw inp : ℚ) * (40/100)
    + (reputationRiskRaw inp : ℚ) * (20/100))

/-- `allFlags` — concatenation of the five analyzers' flags, in source order. -/
def allFlags (inp : AggregatorInputs) : List EvidenceFlag :=
  inp.contractFlags ++ inp.onchainFlags ++ inp.walletFlags
    ++ inp.transparencyFlags ++ inp.scamFlags

/-- One floor rule: when `cond` holds, raise the running score to
`Math.max(floorValue, score)`, recording an adjustment string when the score
actually changed (the source only pushes and assigns when `minScore > finalScore`). -/
def applyFloorRule (cond : Bool) (floorValue : Int) (mkMsg : Int → Int → String)
    (st : Int × List String) : Int × List String :=
  if cond then
    let minScore := max floorValue st.1
    if st.1 < minScore then (minScore, st.2 ++ [mkMsg st.1 minScore]) else st
  else st

/-- Floor rule 1: any critical flag present → floor 70. -/
def criticalFloorRule (inp : AggregatorInputs) : Int × List String → Int × List String :=
  let criticalFlags := (allFlags inp).filter (fun f => f.severity = .critical)
  applyFloorRule (criticalFlags.length > 0) 70
    (fun before after =>
      let n := criticalFlags.length
      s!"Critical flag floor: {before} → {after} ({n} critical flag(s))")

/-- Floor rule 2: at least 3 high-severity flags → floor 60. -/
def highFloorRule (inp : AggregatorInputs) : Int × List String → Int × List String :=
  let highFlags := (allFlags inp).filter (fun f => f.severity = .high)
  applyFloorRule (highFlags.length ≥ 3) 60
    (fun before after =>
      let n := highFlags.length
      s!"High flag floor: {before} → {after} ({n} high-severity flags)")

/-- Floor rule 3: max sub-score at least 75 → floor 60. -/
def componentFloorRule (inp : AggregatorInputs) : Int × List String → Int × List String :=
  let maxComponent := max (contractRiskRaw inp) (max (behaviorRiskRaw inp) (reputationRiskRaw inp))
  applyFloorRule (maxComponent ≥ 75) 60
    (fun before after =>
      s!"Component floor: {before} → {after} (max component score: {maxComponent})")

/-- Floor rule 4: scam-database match (known scam or blacklisted) → floor 85. -/
def scamFloorRule (inp : AggregatorInputs) : Int × List String → Int × List String :=
  applyFloorRule (inp.knownScam || inp.isBlacklisted) 85
    (fun before after =>
      s!"Scam DB floor: {before} → {after} (address flagged in scam database)")

/-- Floor rule 5: linked rugpull (scam rugpull history or linked rugpulls) → floor 80. -/
def rugpullFloorRule (inp : AggregatorInputs) : Int × List String → Int × List String :=
  applyFloorRule (inp.rugpullHistory || inp.linkedRugpulls.length > 0) 80
    (fun before after =>
      s!"Rugpull link floor: {before} → {after} (linked to known rugpull)")

/-- Floor rule 6: at least 7 flags with severity other than info → floor 65. -/
def flagCountFloorRule (inp : AggregatorInputs) : Int × List String → Int × List String :=
  let significantFlags := (allFlags inp).filter (fun f => f.severity ≠ .info)
  applyFloorRule (significantFlags.length ≥ 7) 65
    (fun before after =>
      let n := significantFlags.length
      s!"Flag count floor: {before} → {after} ({n} significant flags)")

/-- The six floor rules of `analyzeRiskIntelligence`, applied to the weighted
total in the fixed source order, followed by the final clamp to 100. Returns
the final score and the adjustment strings. -/
def applyFloors (inp : AggregatorInputs) : Int × List String :=
  let st0 := (weightedScore inp, ([] : List String))
  let st1 := criticalFloorRule inp st0
  let st2 := highFloorRule inp st1
  let st3 := componentFloorRule inp st2
  let st4 := scamFloorRule inp st3
  let st5 := rugpullFloorRule inp st4
  let st6 := flagCountFloorRule inp st5
  (min st6.1 100, st6.2)

/-- The engine's final risk score. -/
def finalRiskScore (inp : AggregatorInputs) : Int := (applyFloors inp).1

/-- The engine's breakdown record (`RiskBreakdown`). -/
structure RiskBreakdown where
  contract_risk : Int
  behavior_risk : Int
  reputation_risk : Int
deriving DecidableEq, Repr

/-- `breakdown` as built by `analyzeRiskIntelligence`. -/
def breakdown (inp : AggregatorInputs) : RiskBreakdown :=
  { contract_risk := contractRiskRaw inp
    behavior_risk := behaviorRiskRaw inp
    reputation_risk := reputationRiskRaw inp }

/-! ## Analyzer error fallbacks (`contractAnalyzer.ts`, `behaviorAnalyzer.ts`,
`walletHistoryChecker.ts`, `scamDatabaseChecker.ts`)

Each analyzer wraps its whole body in a try/catch; the body (network reads
and additive scoring) is abstracted as an `Except` outcome, and the catch
branch is transliterated verbatim. -/

/-- Result of the deep contract analyzer (`ContractAnalysis`), reduced to the
fields the aggregation engine and the claims read. -/
structure ContractAnalysis where
  isContract : Bool
  isVerified : Bool
  codeSize : Nat
  sourceCodeAvailable : Bool
  flags : List EvidenceFlag
  score : Nat
deriving DecidableEq, Repr

/-- The contract analyzer's catch-branch result. -/
def contractAnalysisFallback : ContractAnalysis :=
  { isContract := false
    isVerified := false
    codeSize := 0
    sourceCodeAvailable := false
    flags := [{ id := "analysis_failed"
                name := "Contract Analysis Failed"
                severity := .medium
                description := "Unable to complete contract analysis due to RPC or API error."
                evidence := "Analysis module encountered an error during execution."
                category := "contract"
                source := some "System"
                riskWeight := 15 }]
    score := 30 }

/-- `analyzeContract`: the try body's outcome, or the catch-branch fallback. -/
def analyzeContract (outcome : Except String ContractAnalysis) : ContractAnalysis :=
  match outcome with
  | .ok r => r
  | .error _ => contractAnalysisFallback

/-- Result of the on-chain behavior analyzer. -/
structure BehaviorAnalysis where
  flags : List EvidenceFlag
  indicators : List String
  score : Nat
deriving DecidableEq, Repr

/-- The behavior analyzer's catch-branch result. -/
def behaviorAnalysisFallback : BehaviorAnalysis :=
  { flags := [{ id := "analysis_error"
                name := "Analysis Error"
                severity := .medium
                description := "On-chain behavior analysis could not be completed."
                evidence := "RPC or API connection failed during analysis."
                category := "onchain"
                source := some "System"
                riskWeight := 10 }]
    indicators := []
    score := 30 }

/-- `analyzeOnChainBehavior`: the try body's outcome, or the fallback. -/
def analyzeOnChainBehavior (outcome : Except String BehaviorAnalysis) : BehaviorAnalysis :=
  match outcome with
  | .ok r => r
  | .error _ => behaviorAnalysisFallback

/-- Result of the wallet history checker (`WalletHistoryAnalysis`). -/
structure WalletHistoryAnalysis where
  flags : List EvidenceFlag
  score : Nat
  deployedContracts : List String
  linkedRugpulls : List String
  fundFlowSummary : String
  isContract : Bool
  transactionCount : Nat
  ageInDays : Nat
  balanceBNB : String
deriving DecidableEq, Repr

/-- The wallet history checker's catch-branch result. -/
def walletHistoryFallback : WalletHistoryAnalysis :=
  { flags := [{ id := "wallet_analysis_error"
                name := "Wallet Analysis Error"
                severity := .medium
                description := "Unable to complete wallet history analysis."
                evidence := "RPC or API connection failed during wallet history check."
                category := "wallet"
                source := some "System"
                riskWeight := 10 }]
    score := 20
    deployedContracts := []
    linkedRugpulls := []
    fundFlowSummary := "Analysis failed"
    isContract := false
    transactionCount := 0
    ageInDays := 0
    balanceBNB := "0" }

/-- `analyzeWalletHistory`: the try body's outcome, or the fallback. -/
def analyzeWalletHistory (outcome : Except String WalletHistoryAnalysis) : WalletHistoryAnalysis :=
  match outcome with
  | .ok r => r
  | .error _ => walletHistoryFallback

/-- Result of the scam-database checker. -/
structure ScamCheckResult where
  flags : List EvidenceFlag
  score : Nat
  isBlacklisted : Bool
  knownScam : Bool
  rugpullHistory : Bool
  matchedDatabase : List String
deriving DecidableEq, Repr

/-- The scam-database checker's catch-branch result. -/
def scamCheckFallback : ScamCheckResult :=
  { flags := [{ id := "scam_check_error"
                name := "Scam Check Error"
                severity := .low
                description := "Unable to complete scam database check."
                evidence := "Database lookup encountered an error."
                category := "scam"
                source := some "System"
                riskWeight := 5 }]
    score := 5
    isBlacklisted := false
    knownScam := false
    rugpullHistory := false
    matchedDatabase := [] }

/-- `checkScamDatabase`: the try body's outcome, or the fallback. -/
def checkScamDatabase (outcome : Except String ScamCheckResult) : ScamCheckResult :=
  match outcome with
  | .ok r => r
  | .error _ => scamCheckFallback

/-! ## Guardian protection gate (`guardian.ts`) -/

/-- Guardian API response (`GuardianCheckResponse`). -/
structure GuardianCheckResponse where
  allowed : Bool
  level : DecisionLevel
  recommended_action : DecisionLevel
  riskScore : Int
  reasoning : String
  confidence : DecisionConfidence
deriving DecidableEq, Repr

/-- The fixed fail-safe decision returned by the Guardian's outer catch. -/
def guardianFailSafeResponse : GuardianCheckResponse :=
  { allowed := false
    level := .BLOCK
    recommended_action := .BLOCK
    riskScore := 100
    reasoning := "Could not complete risk analysis. Interaction blocked for safety."
    confidence := .high }

/-- `formatResponse` — project a decision into the API response. -/
def guardianFormatResponse (decision : RiskDecision) : GuardianCheckResponse :=
  { allowed := decision.allowed
    level := decision.level
    recommended_action := decision.recommended_action
    riskScore := decision.riskScore
    reasoning := decision.reasoning
    confidence := decision.confidence }

/-- `checkAddress` — the Guardian gate. The risk analysis is abstracted as an
`Except` outcome (score or exception), and the auto-escalation to Sentinel as
a second `Except` outcome whose errors the inner try/catch swallows. Returns
the response together with whether the address was added to the Sentinel
watchlist. The outer catch yields the fixed fail-safe response. -/
def checkAddress (threshold : Int) (now : Nat)
    (analysis : Except String Int) (escalation : Except String Unit) :
    GuardianCheckResponse × Bool :=
  match analysis with
  | .error _ => (guardianFailSafeResponse, false)
  | .ok riskScore =>
    let decision := decideOnRisk riskScore threshold now
    let response := guardianFormatResponse decision
    let addedToWatchlist :=
      if riskScore ≥ 70 then
        match escalation with
        | .ok _ => true
        | .error _ => false
      else false
    (response, addedToWatchlist)

/-! ## Sentinel monitoring agent (`sentinel.ts`)

The alert cache `this.alerts : Map<string, RiskAlert>` is modelled as an
insertion-ordered association list (the iteration order of a JS `Map`), the
dedup set `this.submittedAlerts : Set<string>` as a duplicate-free list of
keys. -/

/-- A watched-address alert record (`openclaw/types.ts`, `RiskAlert`). -/
structure RiskAlert where
  id : String
  agent : String
  target : String
  riskScore : Int
  level : DecisionLevel
  reason : String
  submittedToChain : Bool
  txHash : Option String
  reportHash : Option String
  timestamp : Nat
deriving DecidableEq, Repr

/-- The Sentinel alert cache: a JS `Map` in insertion order. -/
abbrev AlertCache := List (String × RiskAlert)

/-- `Map.get`. -/
def mapGet (k : String) : AlertCache → Option RiskAlert
  | [] => none
  | p :: rest => if p.1 = k then some p.2 else mapGet k rest

/-- `Map.set`: replace in place when the key exists, append otherwise. -/
def mapSet (k : String) (v : RiskAlert) : AlertCache → AlertCache
  | [] => [(k, v)]
  | p :: rest => if p.1 = k then (k, v) :: rest else p :: mapSet k v rest

/-- `Map.delete`. -/
def mapDelete (k : String) : AlertCache → AlertCache
  | [] => []
  | p :: rest => if p.1 = k then rest else p :: mapDelete k rest

/-- `Map.has`. -/
def hasKey (k : String) (cache : AlertCache) : Bool := (mapGet k cache).isSome

/-- The entry produced by
`Array.from(entries).sort((a, b) => a.timestamp - b.timestamp)[0]`:
the first entry, in insertion order, among those of minimal timestamp
(JS `Array.sort` is stable). -/
def oldestEntry : AlertCache → Option (String × RiskAlert)
  | [] => none
  | p :: rest =>
    match oldestEntry rest with
    | none => some p
    | some q => if q.2.timestamp < p.2.timestamp then some q else some p

/-- The placeholder alert inserted by `addWatchAddress` for a new address. -/
def sentinelPlaceholderAlert (now : Nat) (address : String) : RiskAlert :=
  { id := address ++ "-" ++ toString now
    agent := "RiskSentinel"
    target := address
    riskScore := 0
    level := .ALLOW
    reason := "Initial observation"
    submittedToChain := false
    txHash := none
    reportHash := none
    timestamp := now }

/-- `addWatchAddress`: insert a placeholder alert when the address is not yet
watched; otherwise do nothing. Note: performs no eviction. -/
def addWatchAddress (now : Nat) (address : String) (cache : AlertCache) : AlertCache :=
  if hasKey address cache then cache
  else mapSet address (sentinelPlaceholderAlert now address) cache

/-- The alert record written by `updateAlert`: a fresh record when the
address is new, otherwise the existing record with score, level, reason and
timestamp refreshed (`submittedToChain`, `txHash`, `reportHash`, `id`
preserved). -/
def upsertedAlert (now : Nat) (address : String) (score : Int)
    (level : DecisionLevel) (reason : String) (cache : AlertCache) : RiskAlert :=
  match mapGet address cache with
  | none =>
    { id := address ++ "-" ++ toString now
      agent := "RiskSentinel"
      target := address
      riskScore := score
      level := level
      reason := reason
      submittedToChain := false
      txHash := none
      reportHash := none
      timestamp := now }
  | some a =>
    { a with riskScore := score, level := level, reason := reason, timestamp := now }

/-- `updateAlert`: upsert the alert record for an evaluated address, then,
when the cache size exceeds `maxAlerts`, evict the single oldest-timestamp
entry. -/
def updateAlert (maxAlerts : Nat) (now : Nat) (address : String) (score : Int)
    (level : DecisionLevel) (reason : String) (cache : AlertCache) : AlertCache :=
  let cache1 := mapSet address (upsertedAlert now address score level reason cache) cache
  if maxAlerts < cache1.length then
    match oldestEntry cache1 with
    | some oldest => mapDelete oldest.1 cache1
    | none => cache1
  else cache1

/-- Outcome of a registry submission that succeeded: the condition the source
tests is `submitResult.success && submitResult.txHash`. -/
structure SubmitInfo where
  txHash : String
  reportHash : Option String
deriving DecidableEq, Repr

/-- One watched address's fate in a monitoring cycle: either its analysis
promise was rejected (logged and skipped), or it was analyzed to a risk score.
`submitOutcome` is the registry's answer if a submission is attempted
(`some info` = confirmed success with transaction hash, `none` = failure). -/
inductive CycleObservation where
  | failed (address : String)
  | analyzed (address : String) (riskScore : Int) (submitOutcome : Option SubmitInfo)
deriving DecidableEq, Repr

/-- The Sentinel's mutable state relevant to monitoring cycles. -/
structure SentinelState where
  alerts : AlertCache
  submittedAlerts : List String
  submissionsToChain : Nat
deriving Repr

/-- Freshly constructed Sentinel: empty cache, empty dedup set. -/
def initialSentinelState : SentinelState :=
  { alerts := [], submittedAlerts := [], submissionsToChain := 0 }

/-- The dedup key: `` `${address}-${riskScore}` ``. -/
def dedupeKey (address : String) (riskScore : Int) : String :=
  address ++ "-" ++ toString riskScore

/-- On confirmed submission success the source marks the existing alert
(`submittedToChain`, `txHash`, `reportHash`); a missing alert is left alone. -/
def markAlertSubmitted (address : String) (info : SubmitInfo) (cache : AlertCache) : AlertCache :=
  match mapGet address cache with
  | none => cache
  | some a =>
    mapSet address
      { a with submittedToChain := true, txHash := some info.txHash,
               reportHash := info.reportHash } cache

/-- Processing of one watched address inside `runMonitoringCycle`
(decide → maybe submit → upsert alert). Returns the new state and the list
of dedup keys successfully submitted to the ledger (empty or singleton). -/
def processObservation (threshold : Int) (maxAlerts : Nat) (now : Nat)
    (st : SentinelState) (obs : CycleObservation) : SentinelState × List String :=
  match obs with
  | .failed _ => (st, [])
  | .analyzed address riskScore submitOutcome =>
    let decision := decideOnRisk riskScore threshold now
    let key := dedupeKey address riskScore
    if shouldSubmitToRegistry decision threshold = true ∧ key ∉ st.submittedAlerts then
      match submitOutcome with
      | some info =>
        ({ alerts :=
             updateAlert maxAlerts now address riskScore decision.level
               decision.reasoning (markAlertSubmitted address info st.alerts)
           submittedAlerts := key :: st.submittedAlerts
           submissionsToChain := st.submissionsToChain + 1 }, [key])
      | none =>
        ({ st with
            alerts :=
              updateAlert maxAlerts now address riskScore decision.level
                decision.reasoning st.alerts }, [])
    else
      ({ st with
          alerts :=
            updateAlert maxAlerts now address riskScore decision.level
              decision.reasoning st.alerts }, [])

/-- One monitoring cycle over its observed addresses, threading the state and
concatenating the submission log. -/
def runCycle (threshold : Int) (maxAlerts now : Nat) :
    SentinelState → List CycleObservation → SentinelState × List String
  | st, [] => (st, [])
  | st, obs :: rest =>
    let step := processObservation threshold maxAlerts now st obs
    let tail := runCycle threshold maxAlerts now step.1 rest
    (tail.1, step.2 ++ tail.2)

/-- A sequence of monitoring cycles, each with its wall-clock instant. -/
def runCycles (threshold : Int) (maxAlerts : Nat) :
    SentinelState → List (Nat × List CycleObservation) → SentinelState × List String
  | st, [] => (st, [])
  | st, cycle :: rest =>
    let step := runCycle threshold maxAlerts cycle.1 st cycle.2
    let tail := runCycles threshold maxAlerts step.1 rest
    (tail.1, step.2 ++ tail.2)

/-! ## Concrete inputs used by witnesses -/

/-- A concrete critical evidence flag (the `funnel_pattern` flag of the
wallet-history analyzer), used to exercise the floor rules. -/
def sampleCriticalFlag : EvidenceFlag :=
  { id := "funnel_pattern"
    name := "Fund Funneling Pattern"
    severity := .critical
    description := "Wallet receives from many addresses but sends to very few."
    evidence := "Received from 12 addresses, sent to only 1."
    category := "wallet"
    source := some "BscScan"
    riskWeight := 20 }

/-- A concrete aggregation input whose wallet analyzer produced one critical
flag and whose raw scores are all zero. -/
def sampleAggInputs : AggregatorInputs :=
  { contractFlags := []
    onchainFlags := []
    walletFlags := [sampleCriticalFlag]
    transparencyFlags := []
    scamFlags := []
    contractScore := 0
    onchainScore := 0
    walletScore := 0
    transparencyScore := 0
    scamScore := 0
    knownScam := false
    isBlacklisted := false
    rugpullHistory := false
    linkedRugpulls := [] }

/-- A concrete one-entry alert cache. -/
def sampleCache : AlertCache := [("0xa", sentinelPlaceholderAlert 0 "0xa")]

/-- A concrete successful submission outcome. -/
def sampleSubmitInfo : SubmitInfo := { txHash := "0xhash", reportHash := some "0xreport" }

/-- A concrete monitoring trace: one cycle observing one address at score 90
with a successful submission. -/
def sampleCycles : List (Nat × List CycleObservation) :=
  [(0, [.analyzed "0xa" 90 (some sampleSubmitInfo)])]

end SafeLayer

namespace SafeLayer

/-! ## Lemmas about the floor rules and exact rounding -/

/-- A floor rule never lowers the running score. -/
lemma applyFloorRule_le (cond : Bool) (floorValue : Int) (mkMsg : Int → Int → String)
    (st : Int × List String) : st.1 ≤ (applyFloorRule cond floorValue mkMsg st).1 := by
  unfold applyFloorRule
  split
  · dsimp only
    split
    · exact le_max_right _ _
    · exact le_refl _
  · exact le_refl _

/-- When its condition holds, a floor rule leaves the running score at or
above its floor value. -/
lemma applyFloorRule_floor_le (floorValue : Int) (mkMsg : Int → Int → String)
    (st : Int × List String) :
    floorValue ≤ (applyFloorRule true floorValue mkMsg st).1 := by
  unfold applyFloorRule
  rw [if_pos rfl]
  dsimp only
  split
  · exact le_max_left _ _
  · next h => exact le_trans (le_max_left _ st.1) (not_lt.mp h)

/-- Each of the six named floor rules never lowers the running score. -/
lemma criticalFloorRule_le (inp : AggregatorInputs) (st : Int × List String) :
    st.1 ≤ (criticalFloorRule inp st).1 := applyFloorRule_le _ _ _ st

lemma highFloorRule_le (inp : AggregatorInputs) (st : Int × List String) :
    st.1 ≤ (highFloorRule inp st).1 := applyFloorRule_le _ _ _ st

lemma componentFloorRule_le (inp : AggregatorInputs) (st : Int × List String) :
    st.1 ≤ (componentFloorRule inp st).1 := applyFloorRule_le _ _ _ st

lemma scamFloorRule_le (inp : AggregatorInputs) (st : Int × List String) :
    st.1 ≤ (scamFloorRule inp st).1 := applyFloorRule_le _ _ _ st

lemma rugpullFloorRule_le (inp : AggregatorInputs) (st : Int × List String) :
    st.1 ≤ (rugpullFloorRule inp st).1 := applyFloorRule_le _ _ _ st

lemma flagCountFloorRule_le (inp : AggregatorInputs) (st : Int × List String) :
    st.1 ≤ (flagCountFloorRule inp st).1 := applyFloorRule_le _ _ _ st

/-- `Math.round(a / 10)` for a natural numerator, as exact natural division. -/
lemma jsRound_natCast_div_ten (a : ℕ) :
    jsRound ((a : ℚ) / 10) = ((a + 5) / 10 : ℕ) := by
  unfold jsRound
  have harg : (a : ℚ) / 10 + 1/2 = ((a + 5 : ℕ) : ℚ) / ((10 : ℕ) : ℚ) := by
    push_cast
    ring
  have h0 : (0 : ℚ) ≤ ((a + 5 : ℕ) : ℚ) / ((10 : ℕ) : ℚ) := by positivity
  rw [harg, ← Int.natCast_floor_eq_floor h0, Nat.floor_div_eq_div]

/-- The behavior sub-score in closed natural-number form. -/
lemma behaviorRiskRaw_eq (inp : AggregatorInputs) :
    behaviorRiskRaw inp =
      ((min ((6 * inp.onchainScore + 4 * inp.walletScore + 5) / 10) 100 : ℕ) : ℤ) := by
  unfold behaviorRiskRaw
  have harg : (inp.onchainScore : ℚ) * (6/10) + (inp.walletScore : ℚ) * (4/10)
      = ((6 * inp.onchainScore + 4 * inp.walletScore : ℕ) : ℚ) / 10 := by
    push_cast
    ring
  rw [harg, jsRound_natCast_div_ten]
  push_cast
  rfl

/-- The reputation sub-score in closed natural-number form. -/
lemma reputationRiskRaw_eq (inp : AggregatorInputs) :
    reputationRiskRaw inp =
      ((min ((5 * inp.transparencyScore + 5 * inp.scamScore + 5) / 10) 100 : ℕ) : ℤ) := by
  unfold reputationRiskRaw
  have harg : (inp.transparencyScore : ℚ) * (5/10) + (inp.scamScore : ℚ) * (5/10)
      = ((5 * inp.transparencyScore + 5 * inp.scamScore : ℕ) : ℚ) / 10 := by
    push_cast
    ring
  rw [harg, jsRound_natCast_div_ten]
  push_cast
  rfl

/-- The pre-floor weighted total in closed natural-number form. -/
lemma weightedScore_eq (inp : AggregatorInputs) :
    weightedScore inp =
      (((4 * inp.contractScore
          + 4 * min ((6 * inp.onchainScore + 4 * inp.walletScore + 5) / 10) 100
          + 2 * min ((5 * inp.transparencyScore + 5 * inp.scamScore + 5) / 10) 100
          + 5) / 10 : ℕ) : ℤ) := by
  unfold weightedScore
  rw [behaviorRiskRaw_eq, reputationRiskRaw_eq]
  have harg : ∀ B R : ℕ, ((contractRiskRaw inp : ℚ)) * (40/100)
      + (((B : ℕ) : ℤ) : ℚ) * (40/100) + (((R : ℕ) : ℤ) : ℚ) * (20/100)
      = ((4 * inp.contractScore + 4 * B + 2 * R : ℕ) : ℚ) / 10 := by
    intro B R
    unfold contractRiskRaw
    push_cast
    ring
  rw [harg _ _, jsRound_natCast_div_ten]

end SafeLayer

namespace SafeLayer

/-! ## Claim theorems: decision engine -/

/-- C2: for scores and thresholds in [0,100], the decision level is a pure
function of the score alone (ALLOW below 30, WARN below 60, BLOCK otherwise),
independent of the threshold, and `allowed` is true exactly for
ALLOW/WARN and false exactly for BLOCK. -/
theorem decision_level_pure_in_score (s t t' : Int) (now now' : Nat)
    (hs0 : 0 ≤ s) (hs1 : s ≤ 100) (ht0 : 0 ≤ t) (ht1 : t ≤ 100)
    (ht0' : 0 ≤ t') (ht1' : t' ≤ 100) :
    ((decideOnRisk s t now).level =
      (if s < 30 then .ALLOW else if s < 60 then .WARN else .BLOCK))
    ∧ (decideOnRisk s t now).level = (decideOnRisk s t' now').level
    ∧ ((decideOnRisk s t now).allowed = true ↔
        ((decideOnRisk s t now).level = .ALLOW ∨ (decideOnRisk s t now).level = .WARN))
    ∧ ((decideOnRisk s t now).allowed = false ↔ (decideOnRisk s t now).level = .BLOCK) := by
  have hclamp : clamp01 s = s := by
    simp only [clamp01]
    omega
  refine ⟨?_, ?_, ?_, ?_⟩
  · simp only [decideOnRisk, hclamp]
    rfl
  · rfl
  · simp only [decideOnRisk, decide_eq_true_eq]
  · simp only [decideOnRisk, decide_eq_false_iff_not]
    by_cases h1 : clamp01 s < 30 <;> by_cases h2 : clamp01 s < 60 <;>
      simp [getDecisionLevel, h1, h2]

/-- Witness for `decision_level_pure_in_score` at s = 45, t = 20, t' = 90. -/
theorem decision_level_pure_in_score_witness :
    ((decideOnRisk 45 20 0).level =
      (if (45 : Int) < 30 then .ALLOW else if (45 : Int) < 60 then .WARN else .BLOCK))
    ∧ (decideOnRisk 45 20 0).level = (decideOnRisk 45 90 7).level
    ∧ ((decideOnRisk 45 20 0).allowed = true ↔
        ((decideOnRisk 45 20 0).level = .ALLOW ∨ (decideOnRisk 45 20 0).level = .WARN))
    ∧ ((decideOnRisk 45 20 0).allowed = false ↔ (decideOnRisk 45 20 0).level = .BLOCK) :=
  decision_level_pure_in_score 45 20 90 0 7
    (by decide) (by decide) (by decide) (by decide) (by decide) (by decide)

/-- C8: after clamping both inputs to [0,100], confidence is `high` iff the
distance |s−t| exceeds 30, `medium` iff it is in (15,30], and `low` iff it
is at most 15. -/
theorem confidence_distance_bands (s t : Int) (now : Nat) :
    ((decideOnRisk s t now).confidence = .high ↔ 30 < |clamp01 s - clamp01 t|)
    ∧ ((decideOnRisk s t now).confidence = .medium ↔
        15 < |clamp01 s - clamp01 t| ∧ |clamp01 s - clamp01 t| ≤ 30)
    ∧ ((decideOnRisk s t now).confidence = .low ↔ |clamp01 s - clamp01 t| ≤ 15) := by
  simp only [decideOnRisk, getConfidence]
  by_cases h1 : |clamp01 s - clamp01 t| > 30 <;>
    by_cases h2 : |clamp01 s - clamp01 t| > 15 <;>
    simp [h1, h2] <;> omega

/-- C9 counterexample: two invocations of `decideOnRisk` with identical
(score, threshold) inputs made at different wall-clock instants return
RiskDecision values that differ (in the `timestamp` field), so the result is
not equal in every field across invocations. -/
theorem decideOnRisk_not_invocation_independent :
    decideOnRisk 50 70 0 ≠ decideOnRisk 50 70 1 := by
  decide

/-- C9 amended: `decideOnRisk` is deterministic in every field except
`timestamp`: for identical (score, threshold) inputs the two results agree on
level, allowed, recommended_action, confidence, riskScore and reasoning,
while the `timestamp` field records the invocation instant. -/
theorem decideOnRisk_deterministic_except_timestamp (s t : Int) (n n' : Nat) :
    (decideOnRisk s t n).level = (decideOnRisk s t n').level
    ∧ (decideOnRisk s t n).allowed = (decideOnRisk s t n').allowed
    ∧ (decideOnRisk s t n).recommended_action = (decideOnRisk s t n').recommended_action
    ∧ (decideOnRisk s t n).confidence = (decideOnRisk s t n').confidence
    ∧ (decideOnRisk s t n).riskScore = (decideOnRisk s t n').riskScore
    ∧ (decideOnRisk s t n).reasoning = (decideOnRisk s t n').reasoning
    ∧ (decideOnRisk s t n).timestamp = n := by
  refine ⟨rfl, rfl, rfl, rfl, rfl, rfl, rfl⟩

/-! ## Claim theorems: aggregation engine -/

/-- C1: the six floor rules are applied to the weighted total in the fixed
source order (critical → high-count → max-component → scam-DB → rugpull →
flag-count, then the clamp to 100); every rule only raises the running
score; whenever any analyzer yields a critical flag the final score is at
least 70; and the final score never exceeds 100. -/
theorem floor_rules_fixed_order_monotone_bounds (inp : AggregatorInputs) :
    (finalRiskScore inp =
      min (flagCountFloorRule inp (rugpullFloorRule inp (scamFloorRule inp
        (componentFloorRule inp (highFloorRule inp (criticalFloorRule inp
          (weightedScore inp, []))))))).1 100)
    ∧ (∀ st : Int × List String,
        st.1 ≤ (criticalFloorRule inp st).1 ∧ st.1 ≤ (highFloorRule inp st).1
        ∧ st.1 ≤ (componentFloorRule inp st).1 ∧ st.1 ≤ (scamFloorRule inp st).1
        ∧ st.1 ≤ (rugpullFloorRule inp st).1 ∧ st.1 ≤ (flagCountFloorRule inp st).1)
    ∧ ((∃ f ∈ allFlags inp, f.severity = .critical) → 70 ≤ finalRiskScore inp)
    ∧ finalRiskScore inp ≤ 100 := by
  refine ⟨rfl, ?_, ?_, min_le_right _ _⟩
  · intro st
    exact ⟨criticalFloorRule_le inp st, highFloorRule_le inp st,
      componentFloorRule_le inp st, scamFloorRule_le inp st,
      rugpullFloorRule_le inp st, flagCountFloorRule_le inp st⟩
  · intro hcrit
    obtain ⟨f, hf, hsev⟩ := hcrit
    have hmem : f ∈ (allFlags inp).filter (fun g => g.severity = Severity.critical) :=
      List.mem_filter.mpr ⟨hf, by simp [hsev]⟩
    have hlen : 0 < ((allFlags inp).filter (fun g => g.severity = Severity.critical)).length :=
      List.length_pos.mpr (List.ne_nil_of_mem hmem)
    have h70 : 70 ≤ (criticalFloorRule inp (weightedScore inp, [])).1 := by
      unfold criticalFloorRule
      rw [show (decide (((allFlags inp).filter
            (fun g => g.severity = Severity.critical)).length > 0)) = true by
          simpa using hlen]
      exact applyFloorRule_floor_le _ _ _
    have hchain : (criticalFloorRule inp (weightedScore inp, [])).1 ≤
        (flagCountFloorRule inp (rugpullFloorRule inp (scamFloorRule inp
          (componentFloorRule inp (highFloorRule inp (criticalFloorRule inp
            (weightedScore inp, []))))))).1 :=
      le_trans (highFloorRule_le inp _)
        (le_trans (componentFloorRule_le inp _)
          (le_trans (scamFloorRule_le inp _)
            (le_trans (rugpullFloorRule_le inp _) (flagCountFloorRule_le inp _))))
    exact le_min (le_trans h70 hchain) (by omega)

/-- Witness for `floor_rules_fixed_order_monotone_bounds` at a concrete input
with one critical flag, discharging the critical-flag hypothesis of the
floor-70 conjunct. -/
theorem floor_rules_fixed_order_monotone_bounds_witness :
    (∃ f ∈ allFlags sampleAggInputs, f.severity = .critical)
    ∧ (finalRiskScore sampleAggInputs =
        min (flagCountFloorRule sampleAggInputs (rugpullFloorRule sampleAggInputs
          (scamFloorRule sampleAggInputs (componentFloorRule sampleAggInputs
            (highFloorRule sampleAggInputs (criticalFloorRule sampleAggInputs
              (weightedScore sampleAggInputs, []))))))).1 100)
    ∧ (∀ st : Int × List String,
        st.1 ≤ (criticalFloorRule sampleAggInputs st).1
        ∧ st.1 ≤ (highFloorRule sampleAggInputs st).1
        ∧ st.1 ≤ (componentFloorRule sampleAggInputs st).1
        ∧ st.1 ≤ (scamFloorRule sampleAggInputs st).1
        ∧ st.1 ≤ (rugpullFloorRule sampleAggInputs st).1
        ∧ st.1 ≤ (flagCountFloorRule sampleAggInputs st).1)
    ∧ 70 ≤ finalRiskScore sampleAggInputs
    ∧ finalRiskScore sampleAggInputs ≤ 100 :=
  have h := floor_rules_fixed_order_monotone_bounds sampleAggInputs
  ⟨⟨sampleCriticalFlag, by decide, by decide⟩, h.1, h.2.1,
    h.2.2.1 ⟨sampleCriticalFlag, by decide, by decide⟩, h.2.2.2⟩

/-- C3: the breakdown sub-scores and the pre-floor weighted total, in exact
closed form: `contract_risk` is the contract analyzer's score;
`behavior_risk = round(onchain·0.6 + wallet·0.4)` clamped to at most 100,
which on integer inputs equals `⌊(6·onchain + 4·wallet + 5)/10⌋` capped at
100; `reputation_risk = round(transparency·0.5 + scam·0.5)` clamped, which
equals `⌊(5·transparency + 5·scam + 5)/10⌋` capped at 100; and the pre-floor
weighted total `round(contract·0.40 + behavior·0.40 + reputation·0.20)`
equals `⌊(4·contract + 4·behavior + 2·reputation + 5)/10⌋`. -/
theorem breakdown_composition_and_weighted_total (inp : AggregatorInputs) :
    (breakdown inp).contract_risk = (inp.contractScore : ℤ)
    ∧ (breakdown inp).behavior_risk
        = ((min ((6 * inp.onchainScore + 4 * inp.walletScore + 5) / 10) 100 : ℕ) : ℤ)
    ∧ (breakdown inp).reputation_risk
        = ((min ((5 * inp.transparencyScore + 5 * inp.scamScore + 5) / 10) 100 : ℕ) : ℤ)
    ∧ weightedScore inp
        = (((4 * inp.contractScore
            + 4 * min ((6 * inp.onchainScore + 4 * inp.walletScore + 5) / 10) 100
            + 2 * min ((5 * inp.transparencyScore + 5 * inp.scamScore + 5) / 10) 100
            + 5) / 10 : ℕ) : ℤ) :=
  ⟨rfl, behaviorRiskRaw_eq inp, reputationRiskRaw_eq inp, weightedScore_eq inp⟩

/-! ## Claim theorems: Guardian and analyzers -/

/-- C6: whenever the analysis raises an unhandled exception, the Guardian's
`checkAddress` returns exactly the fixed fail-safe decision (allowed false,
level BLOCK, riskScore 100, confidence high, with the fail-safe reasoning
text); moreover exceptions during the Sentinel escalation are handled
internally and never alter the returned response, so no exception reaches
the caller. -/
theorem guardian_fail_safe (threshold : Int) (now : Nat) (e : String)
    (escalation : Except String Unit) :
    (checkAddress threshold now (.error e) escalation).1 = guardianFailSafeResponse
    ∧ (checkAddress threshold now (.error e) escalation).1.allowed = false
    ∧ (checkAddress threshold now (.error e) escalation).1.level = .BLOCK
    ∧ (checkAddress threshold now (.error e) escalation).1.riskScore = 100
    ∧ (checkAddress threshold now (.error e) escalation).1.confidence = .high
    ∧ (checkAddress threshold now (.error e) escalation).1.reasoning
        = "Could not complete risk analysis. Interaction blocked for safety."
    ∧ (∀ (analysis : Except String Int) (esc esc' : Except String Unit),
        (checkAddress threshold now analysis esc).1
          = (checkAddress threshold now analysis esc').1) := by
  refine ⟨rfl, rfl, rfl, rfl, rfl, rfl, ?_⟩
  intro analysis esc esc'
  cases analysis <;> rfl

/-- C7: no analyzer propagates a provider/network failure; each returns a
degraded result consisting of a single analyzer-specific error flag plus the
conservative fallback score — 30 for the contract and behavior analyzers,
20 for the wallet history checker, 5 for the scam-database checker. -/
theorem analyzer_error_fallbacks (e : String) :
    (analyzeContract (.error e)).flags = contractAnalysisFallback.flags
    ∧ (analyzeContract (.error e)).flags.length = 1
    ∧ (analyzeContract (.error e)).score = 30
    ∧ (analyzeOnChainBehavior (.error e)).flags = behaviorAnalysisFallback.flags
    ∧ (analyzeOnChainBehavior (.error e)).flags.length = 1
    ∧ (analyzeOnChainBehavior (.error e)).score = 30
    ∧ (analyzeWalletHistory (.error e)).flags = walletHistoryFallback.flags
    ∧ (analyzeWalletHistory (.error e)).flags.length = 1
    ∧ (analyzeWalletHistory (.error e)).score = 20
    ∧ (checkScamDatabase (.error e)).flags = scamCheckFallback.flags
    ∧ (checkScamDatabase (.error e)).flags.length = 1
    ∧ (checkScamDatabase (.error e)).score = 5 :=
  ⟨rfl, rfl, rfl, rfl, rfl, rfl, rfl, rfl, rfl, rfl, rfl, rfl⟩

end SafeLayer

namespace SafeLayer

/-! ## Lemmas about the alert cache -/

/-- `Map.get` after `Map.set` of the same key. -/
lemma mapGet_mapSet_self (k : String) (v : RiskAlert) (l : AlertCache) :
    mapGet k (mapSet k v l) = some v := by
  induction l with
  | nil => simp [mapSet, mapGet]
  | cons p rest ih =>
    by_cases h : p.1 = k
    · simp [mapSet, h, mapGet]
    · simp [mapSet, h, mapGet, ih]

/-- `Map.has` after `Map.set` of the same key. -/
lemma hasKey_mapSet_self (k : String) (v : RiskAlert) (l : AlertCache) :
    hasKey k (mapSet k v l) = true := by
  simp [hasKey, mapGet_mapSet_self]

/-- `Map.set` keeps the size when the key exists and grows it by one
otherwise. -/
lemma mapSet_length (k : String) (v : RiskAlert) (l : AlertCache) :
    (mapSet k v l).length = if hasKey k l then l.length else l.length + 1 := by
  induction l with
  | nil => simp [mapSet, hasKey, mapGet]
  | cons p rest ih =>
    by_cases h : p.1 = k
    · simp [mapSet, h, hasKey, mapGet]
    · simp only [mapSet, h, if_false, List.length_cons, hasKey, mapGet, ih]
      split <;> simp

/-- `Map.delete` of a present key shrinks the size by one. -/
lemma mapDelete_length (k : String) (l : AlertCache) (h : hasKey k l = true) :
    (mapDelete k l).length + 1 = l.length := by
  induction l with
  | nil => simp [hasKey, mapGet] at h
  | cons p rest ih =>
    by_cases hp : p.1 = k
    · simp [mapDelete, hp]
    · simp only [hasKey, mapGet, hp, if_false] at h
      simp [mapDelete, hp, ih h]

/-- An entry of the cache makes its key present. -/
lemma hasKey_of_mem (e : String × RiskAlert) (l : AlertCache) (h : e ∈ l) :
    hasKey e.1 l = true := by
  induction l with
  | nil => cases h
  | cons p rest ih =>
    rcases List.mem_cons.mp h with rfl | h'
    · simp [hasKey, mapGet]
    · by_cases hp : p.1 = e.1
      · simp [hasKey, mapGet, hp]
      · simpa [hasKey, mapGet, hp] using ih h'

/-- `Map.set` on an absent key appends the new entry. -/
lemma mapSet_of_not_hasKey (k : String) (v : RiskAlert) (l : AlertCache)
    (h : hasKey k l = false) : mapSet k v l = l ++ [(k, v)] := by
  induction l with
  | nil => simp [mapSet]
  | cons p rest ih =>
    by_cases hp : p.1 = k
    · simp [hasKey, mapGet, hp] at h
    · simp only [hasKey, mapGet, hp, if_false] at h
      simp [mapSet, hp, ih h]

/-- A nonempty cache has an oldest entry. -/
lemma oldestEntry_isSome (p : String × RiskAlert) (rest : AlertCache) :
    (oldestEntry (p :: rest)).isSome = true := by
  simp only [oldestEntry]
  rcases h : oldestEntry rest with _ | q
  · rfl
  · by_cases hq : q.2.timestamp < p.2.timestamp <;> simp [hq]

/-- The oldest entry is an entry of the cache. -/
lemma oldestEntry_mem : ∀ (l : AlertCache) (e : String × RiskAlert),
    oldestEntry l = some e → e ∈ l
  | [], e, h => by simp [oldestEntry] at h
  | p :: rest, e, h => by
    simp only [oldestEntry] at h
    rcases hr : oldestEntry rest with _ | q
    · rw [hr] at h
      injection h with h
      subst h
      exact List.mem_cons_self _ _
    · rw [hr] at h
      replace h : (if q.2.timestamp < p.2.timestamp then some q else some p) = some e := h
      by_cases hlt : q.2.timestamp < p.2.timestamp
      · rw [if_pos hlt] at h
        injection h with h
        subst h
        exact List.mem_cons_of_mem p (oldestEntry_mem rest _ hr)
      · rw [if_neg hlt] at h
        injection h with h
        subst h
        exact List.mem_cons_self _ _

/-- The oldest entry has minimal timestamp among all entries. -/
lemma oldestEntry_min : ∀ (l : AlertCache) (e : String × RiskAlert),
    oldestEntry l = some e → ∀ p ∈ l, e.2.timestamp ≤ p.2.timestamp
  | [], e, h => by simp [oldestEntry] at h
  | p :: rest, e, h => by
    simp only [oldestEntry] at h
    rcases hr : oldestEntry rest with _ | q
    · rw [hr] at h
      injection h with h
      subst h
      intro q hq
      cases rest with
      | nil =>
        rcases List.mem_cons.mp hq with rfl | hq'
        · exact le_refl _
        · cases hq'
      | cons a b =>
        have hs := oldestEntry_isSome a b
        rw [hr] at hs
        cases hs
    · rw [hr] at h
      replace h : (if q.2.timestamp < p.2.timestamp then some q else some p) = some e := h
      have hqmin := oldestEntry_min rest q hr
      rcases lt_or_le q.2.timestamp p.2.timestamp with hlt | hge
      · rw [if_pos hlt] at h
        injection h with h
        subst h
        intro r hrm
        rcases List.mem_cons.mp hrm with rfl | hr'
        · exact le_of_lt hlt
        · exact hqmin r hr'
      · rw [if_neg (not_lt.mpr hge)] at h
        injection h with h
        subst h
        intro r hrm
        rcases List.mem_cons.mp hrm with rfl | hr'
        · exact le_refl _
        · exact le_trans hge (hqmin r hr')

/-- The eviction step of `updateAlert` restores the size bound. -/
lemma evict_step_length (maxAlerts : Nat) (cache1 : AlertCache)
    (h : cache1.length ≤ maxAlerts + 1) :
    (if maxAlerts < cache1.length then
       match oldestEntry cache1 with
       | some oldest => mapDelete oldest.1 cache1
       | none => cache1
     else cache1).length ≤ maxAlerts := by
  split
  · next hlt =>
    rcases ho : oldestEntry cache1 with _ | oldest
    · cases cache1 with
      | nil =>
        simp only [List.length_nil] at hlt
        omega
      | cons a b =>
        have hs := oldestEntry_isSome a b
        rw [ho] at hs
        simp at hs
    · show (mapDelete oldest.1 cache1).length ≤ maxAlerts
      have hmem := oldestEntry_mem cache1 oldest ho
      have hk := hasKey_of_mem oldest cache1 hmem
      have hlen := mapDelete_length oldest.1 cache1 hk
      omega
  · next hnlt => omega

/-- `updateAlert` preserves the `maxAlerts` bound. -/
lemma updateAlert_length_le (maxAlerts now : Nat) (address : String) (score : Int)
    (level : DecisionLevel) (reason : String) (cache : AlertCache)
    (hbound : cache.length ≤ maxAlerts) :
    (updateAlert maxAlerts now address score level reason cache).length ≤ maxAlerts := by
  have hlen :
      (mapSet address (upsertedAlert now address score level reason cache) cache).length
        ≤ maxAlerts + 1 := by
    rw [mapSet_length]
    split <;> omega
  exact evict_step_length maxAlerts _ hlen

/-- `addWatchAddress` on an already-watched address is the identity. -/
lemma addWatchAddress_of_hasKey (n : Nat) (k : String) (c : AlertCache)
    (h : hasKey k c = true) : addWatchAddress n k c = c := by
  unfold addWatchAddress
  rw [if_pos h]

end SafeLayer

namespace SafeLayer

/-! ## Claim theorems: Sentinel alert cache -/

/-- C5 counterexample: with `maxAlerts = 1`, two `addWatchAddress` calls on
distinct addresses leave 2 alerts in the cache — `addWatchAddress` performs
no eviction, so the cache exceeds the configured capacity immediately after
this insertion. -/
theorem addWatchAddress_can_exceed_maxAlerts :
    ¬ ((addWatchAddress 1 "0xb" (addWatchAddress 0 "0xa" [])).length ≤ 1) := by
  decide

/-- C5 amended: the per-cycle upsert `updateAlert` does keep the cache at or
below `maxAlerts` whenever it was within the bound before, and the evicted
entry is always one with minimal timestamp (first in insertion order among
ties); the manual `addWatchAddress`, by contrast, never evicts — it leaves
the cache unchanged or appends one entry — so only the per-cycle upsert
enforces the bound. -/
theorem updateAlert_bounds_cache_and_evicts_oldest
    (maxAlerts now : Nat) (address : String) (score : Int) (level : DecisionLevel)
    (reason : String) (cache : AlertCache) (hbound : cache.length ≤ maxAlerts) :
    (updateAlert maxAlerts now address score level reason cache).length ≤ maxAlerts
    ∧ (∀ (l : AlertCache) (e : String × RiskAlert), oldestEntry l = some e →
        e ∈ l ∧ ∀ p ∈ l, e.2.timestamp ≤ p.2.timestamp)
    ∧ (∀ (now' : Nat) (addr : String) (c : AlertCache),
        addWatchAddress now' addr c
          = if hasKey addr c then c
            else c ++ [(addr, sentinelPlaceholderAlert now' addr)]) := by
  refine ⟨updateAlert_length_le maxAlerts now address score level reason cache hbound,
    ?_, ?_⟩
  · intro l e he
    exact ⟨oldestEntry_mem l e he, oldestEntry_min l e he⟩
  · intro now' addr c
    unfold addWatchAddress
    by_cases h : hasKey addr c
    · rw [if_pos h, if_pos h]
    · rw [if_neg h, if_neg h]
      exact mapSet_of_not_hasKey addr _ c (by simpa using h)

/-- Witness for `updateAlert_bounds_cache_and_evicts_oldest`:
`maxAlerts = 1` and a one-entry cache. -/
theorem updateAlert_bounds_cache_and_evicts_oldest_witness :
    (sampleCache.length ≤ 1)
    ∧ ((updateAlert 1 5 "0xb" 40 .WARN "r" sampleCache).length ≤ 1
      ∧ (∀ (l : AlertCache) (e : String × RiskAlert), oldestEntry l = some e →
          e ∈ l ∧ ∀ p ∈ l, e.2.timestamp ≤ p.2.timestamp)
      ∧ (∀ (now' : Nat) (addr : String) (c : AlertCache),
          addWatchAddress now' addr c
            = if hasKey addr c then c
              else c ++ [(addr, sentinelPlaceholderAlert now' addr)])) :=
  ⟨by decide,
    updateAlert_bounds_cache_and_evicts_oldest 1 5 "0xb" 40 .WARN "r" sampleCache (by decide)⟩

/-- C10: `addWatchAddress` is idempotent — a second call for the same address
leaves the cache (every field of the existing record included) unchanged —
and on a fresh address it appends a placeholder alert with riskScore 0,
level ALLOW and submittedToChain false. -/
theorem addWatchAddress_idempotent_and_placeholder
    (now now' : Nat) (address : String) (cache : AlertCache) :
    addWatchAddress now' address (addWatchAddress now address cache)
        = addWatchAddress now address cache
    ∧ addWatchAddress now address cache
        = (if hasKey address cache then cache
           else cache ++ [(address, sentinelPlaceholderAlert now address)])
    ∧ (sentinelPlaceholderAlert now address).riskScore = 0
    ∧ (sentinelPlaceholderAlert now address).level = .ALLOW
    ∧ (sentinelPlaceholderAlert now address).submittedToChain = false := by
  refine ⟨?_, ?_, rfl, rfl, rfl⟩
  · have h : hasKey address (addWatchAddress now address cache) = true := by
      unfold addWatchAddress
      by_cases hc : hasKey address cache
      · rw [if_pos hc]
        exact hc
      · rw [if_neg hc]
        exact hasKey_mapSet_self _ _ _
    exact addWatchAddress_of_hasKey now' address _ h
  · unfold addWatchAddress
    by_cases h : hasKey address cache
    · rw [if_pos h, if_pos h]
    · rw [if_neg h, if_neg h]
      exact mapSet_of_not_hasKey address _ cache (by simpa using h)

end SafeLayer

namespace SafeLayer

/-! ## Lemmas about the Sentinel submission deduplication -/

/-- One observation: the submission log of a step holds the key at most once,
only when the key was not yet recorded; and afterwards the key is recorded
exactly when it was before or a confirmed submission for it just happened. -/
lemma processObservation_dedup (threshold : Int) (maxAlerts now : Nat)
    (st : SentinelState) (obs : CycleObservation) (key : String) :
    ((processObservation threshold maxAlerts now st obs).2.count key
      ≤ if key ∈ st.submittedAlerts then 0 else 1)
    ∧ (key ∈ (processObservation threshold maxAlerts now st obs).1.submittedAlerts
        ↔ key ∈ st.submittedAlerts
          ∨ 0 < (processObservation threshold maxAlerts now st obs).2.count key) := by
  cases obs with
  | failed a =>
    constructor
    · show ([] : List String).count key ≤ _
      simp only [List.count_nil]
      split <;> omega
    · show key ∈ st.submittedAlerts ↔ _
      simp [processObservation]
  | analyzed a sc out =>
    cases out with
    | some info =>
      simp only [processObservation]
      split
      · next hcond =>
        constructor
        · show [dedupeKey a sc].count key ≤ _
          by_cases hk : key = dedupeKey a sc
          · subst hk
            rw [if_neg hcond.2]
            simp [List.count_cons]
          · simp [List.count_cons, hk]
        · show key ∈ dedupeKey a sc :: st.submittedAlerts ↔ _
          by_cases hk : key = dedupeKey a sc <;>
            simp [List.mem_cons, List.count_cons, hk]
      · next hcond =>
        constructor
        · show ([] : List String).count key ≤ _
          simp only [List.count_nil]
          split <;> omega
        · show key ∈ st.submittedAlerts ↔ _
          simp
    | none =>
      simp only [processObservation]
      split
      · constructor
        · show ([] : List String).count key ≤ _
          simp only [List.count_nil]
          split <;> omega
        · show key ∈ st.submittedAlerts ↔ _
          simp
      · constructor
        · show ([] : List String).count key ≤ _
          simp only [List.count_nil]
          split <;> omega
        · show key ∈ st.submittedAlerts ↔ _
          simp

/-- The per-observation dedup invariant, threaded through one cycle. -/
lemma runCycle_dedup (threshold : Int) (maxAlerts now : Nat) (key : String) :
    ∀ (obsList : List CycleObservation) (st : SentinelState),
    ((runCycle threshold maxAlerts now st obsList).2.count key
      ≤ if key ∈ st.submittedAlerts then 0 else 1)
    ∧ (key ∈ (runCycle threshold maxAlerts now st obsList).1.submittedAlerts
        ↔ key ∈ st.submittedAlerts
          ∨ 0 < (runCycle threshold maxAlerts now st obsList).2.count key)
  | [], st => by
    constructor
    · show ([] : List String).count key ≤ _
      simp only [List.count_nil]
      split <;> omega
    · show key ∈ st.submittedAlerts ↔ _
      simp [runCycle]
  | obs :: rest, st => by
    obtain ⟨h1, h2⟩ := processObservation_dedup threshold maxAlerts now st obs key
    obtain ⟨h3, h4⟩ := runCycle_dedup threshold maxAlerts now key rest
      (processObservation threshold maxAlerts now st obs).1
    simp only [runCycle, List.count_append]
    constructor
    · by_cases m0 : key ∈ st.submittedAlerts
      · rw [if_pos m0] at h1 ⊢
        have m1 : key ∈ (processObservation threshold maxAlerts now st obs).1.submittedAlerts :=
          h2.mpr (Or.inl m0)
        rw [if_pos m1] at h3
        omega
      · rw [if_neg m0] at h1 ⊢
        by_cases m1 : key ∈ (processObservation threshold maxAlerts now st obs).1.submittedAlerts
        · rw [if_pos m1] at h3
          omega
        · rw [if_neg m1] at h3
          have hz : ¬ 0 < (processObservation threshold maxAlerts now st obs).2.count key :=
            fun hpos => m1 (h2.mpr (Or.inr hpos))
          omega
    · rw [h4, h2]
      constructor
      · rintro ((hm | hp) | hp2)
        · exact Or.inl hm
        · exact Or.inr (by omega)
        · exact Or.inr (by omega)
      · rintro (hm | hp)
        · exact Or.inl (Or.inl hm)
        · by_cases hpc : 0 < (processObservation threshold maxAlerts now st obs).2.count key
          · exact Or.inl (Or.inr hpc)
          · exact Or.inr (by omega)

/-- The dedup invariant, threaded through a sequence of cycles. -/
lemma runCycles_dedup (threshold : Int) (maxAlerts : Nat) (key : String) :
    ∀ (cycles : List (Nat × List CycleObservation)) (st : SentinelState),
    ((runCycles threshold maxAlerts st cycles).2.count key
      ≤ if key ∈ st.submittedAlerts then 0 else 1)
    ∧ (key ∈ (runCycles threshold maxAlerts st cycles).1.submittedAlerts
        ↔ key ∈ st.submittedAlerts
          ∨ 0 < (runCycles threshold maxAlerts st cycles).2.count key)
  | [], st => by
    constructor
    · show ([] : List String).count key ≤ _
      simp only [List.count_nil]
      split <;> omega
    · show key ∈ st.submittedAlerts ↔ _
      simp [runCycles]
  | cycle :: rest, st => by
    obtain ⟨h1, h2⟩ := runCycle_dedup threshold maxAlerts cycle.1 key cycle.2 st
    obtain ⟨h3, h4⟩ := runCycles_dedup threshold maxAlerts key rest
      (runCycle threshold maxAlerts cycle.1 st cycle.2).1
    simp only [runCycles, List.count_append]
    constructor
    · by_cases m0 : key ∈ st.submittedAlerts
      · rw [if_pos m0] at h1 ⊢
        have m1 : key ∈ (runCycle threshold maxAlerts cycle.1 st cycle.2).1.submittedAlerts :=
          h2.mpr (Or.inl m0)
        rw [if_pos m1] at h3
        omega
      · rw [if_neg m0] at h1 ⊢
        by_cases m1 : key ∈ (runCycle threshold maxAlerts cycle.1 st cycle.2).1.submittedAlerts
        · rw [if_pos m1] at h3
          omega
        · rw [if_neg m1] at h3
          have hz : ¬ 0 < (runCycle threshold maxAlerts cycle.1 st cycle.2).2.count key :=
            fun hpos => m1 (h2.mpr (Or.inr hpos))
          omega
    · rw [h4, h2]
      constructor
      · rintro ((hm | hp) | hp2)
        · exact Or.inl hm
        · exact Or.inr (by omega)
        · exact Or.inr (by omega)
      · rintro (hm | hp)
        · exact Or.inl (Or.inl hm)
        · by_cases hpc : 0 < (runCycle threshold maxAlerts cycle.1 st cycle.2).2.count key
          · exact Or.inl (Or.inr hpc)
          · exact Or.inr (by omega)

end SafeLayer

namespace SafeLayer

/-- C4: over any sequence of monitoring cycles starting from a fresh
Sentinel, at most one confirmed ledger submission occurs per
(address, score) pair; the dedup entry for the pair is present exactly when
a confirmed submission happened; a failed submission records nothing in the
dedup set; and when the pair qualifies and is not yet recorded, the
submission is attempted (and, confirmed, logged), so a previously failed
submission at an unchanged score is retried. -/
theorem sentinel_submission_dedup (threshold : Int) (maxAlerts : Nat)
    (cycles : List (Nat × List CycleObservation)) (address : String) (riskScore : Int)
    (st : SentinelState) (now : Nat) (info : SubmitInfo)
    (hshould : shouldSubmitToRegistry (decideOnRisk riskScore threshold now) threshold = true)
    (hnew : dedupeKey address riskScore ∉ st.submittedAlerts) :
    ((runCycles threshold maxAlerts initialSentinelState cycles).2.count
        (dedupeKey address riskScore) ≤ 1)
    ∧ (dedupeKey address riskScore
          ∈ (runCycles threshold maxAlerts initialSentinelState cycles).1.submittedAlerts
        ↔ 0 < (runCycles threshold maxAlerts initialSentinelState cycles).2.count
            (dedupeKey address riskScore))
    ∧ (∀ (st' : SentinelState) (now' : Nat) (a : String) (sc : Int),
        (processObservation threshold maxAlerts now' st'
            (.analyzed a sc none)).1.submittedAlerts = st'.submittedAlerts)
    ∧ (processObservation threshold maxAlerts now st
        (.analyzed address riskScore (some info))).2 = [dedupeKey address riskScore] := by
  obtain ⟨h1, h2⟩ := runCycles_dedup threshold maxAlerts (dedupeKey address riskScore)
    cycles initialSentinelState
  have hini : dedupeKey address riskScore ∉ initialSentinelState.submittedAlerts := by
    simp [initialSentinelState]
  rw [if_neg hini] at h1
  refine ⟨h1, ?_, ?_, ?_⟩
  · rw [h2]
    simp [hini]
  · intro st' now' a sc
    simp only [processObservation]
    split <;> rfl
  · simp only [processObservation]
    rw [if_pos (⟨hshould, hnew⟩ :
      shouldSubmitToRegistry (decideOnRisk riskScore threshold now) threshold = true
        ∧ dedupeKey address riskScore ∉ st.submittedAlerts)]

/-- Witness for `sentinel_submission_dedup`: threshold 70, score 90, a fresh
Sentinel, one cycle observing one address with a confirmed submission. -/
theorem sentinel_submission_dedup_witness :
    (shouldSubmitToRegistry (decideOnRisk 90 70 0) 70 = true)
    ∧ (dedupeKey "0xa" 90 ∉ initialSentinelState.submittedAlerts)
    ∧ (((runCycles 70 100 initialSentinelState sampleCycles).2.count
          (dedupeKey "0xa" 90) ≤ 1)
      ∧ (dedupeKey "0xa" 90
            ∈ (runCycles 70 100 initialSentinelState sampleCycles).1.submittedAlerts
          ↔ 0 < (runCycles 70 100 initialSentinelState sampleCycles).2.count
              (dedupeKey "0xa" 90))
      ∧ (∀ (st' : SentinelState) (now' : Nat) (a : String) (sc : Int),
          (processObservation 70 100 now' st'
              (.analyzed a sc none)).1.submittedAlerts = st'.submittedAlerts)
      ∧ (processObservation 70 100 0 initialSentinelState
          (.analyzed "0xa" 90 (some sampleSubmitInfo))).2 = [dedupeKey "0xa" 90]) :=
  ⟨by decide, by decide,
    sentinel_submission_dedup 70 100 sampleCycles "0xa" 90 initialSentinelState 0
      sampleSubmitInfo (by decide) (by decide)⟩

end SafeLayer
